import Mathlib

/-!
Shallow embedding of the MujerOS all-in-one bridge
(src/MujerOS_AllInOne_v3_3.py) for specification checking.

The embedding models the installer-bridge core: the app-id validation
regex, the subprocess helpers, the flatpak listing parser, the
confirmation gate, and the HTTP handler methods do_GET / do_POST.
External behaviour (whether flatpak is installed, what each subprocess
prints and returns, whether a display and dialog tools exist, what the
operator types on stdin) is supplied by an explicit environment record
Env; every subprocess the handler would spawn is recorded in a trace of
Effect values.  An uncaught Python exception inside a handler is
modelled as Except.error ().

String helpers mirror the Python string methods used by the source
(strip, split, splitlines, lower, upper, the x-or-y idiom on strings).
strip and splitlines use the full Unicode whitespace and line-break sets
of Python.  upper models the full per-character uppercase mapping on
every character whose image can contribute to the one comparison the
source makes with it (the console gate's comparison against the token
YES) and is the identity elsewhere; the doc comment of pyUpperChar
details why the remaining difference is unobservable.  lower is applied
by the source only to choose between header tokens and to order the
listing, neither of which any theorem below depends on beyond ASCII.
-/

namespace MujerOS

/-- Whitespace characters stripped by Python str.strip, i.e. the
characters on which str.isspace is true: U+0009 to U+000D, U+001C to
U+0020, U+0085, U+00A0, U+1680, U+2000 to U+200A, U+2028, U+2029,
U+202F, U+205F and U+3000. -/
def isPySpace (c : Char) : Bool :=
  decide ((9 ≤ c.toNat ∧ c.toNat ≤ 13) ∨ (28 ≤ c.toNat ∧ c.toNat ≤ 32) ∨
    c.toNat = 133 ∨ c.toNat = 160 ∨ c.toNat = 5760 ∨
    (8192 ≤ c.toNat ∧ c.toNat ≤ 8202) ∨ c.toNat = 8232 ∨ c.toNat = 8233 ∨
    c.toNat = 8239 ∨ c.toNat = 8287 ∨ c.toNat = 12288)

/-- Python str.strip(): remove leading and trailing whitespace (the
full set above). -/
def pyStrip (s : String) : String :=
  String.mk (((s.toList.dropWhile isPySpace).reverse.dropWhile isPySpace).reverse)

/-- Python x or y on strings: y when x is empty, else x. -/
def pyOr (x y : String) : String :=
  if x = "" then y else x

/-- Python str.lower(), ASCII range (the source only lowers ASCII header
tokens). -/
def asciiLower (s : String) : String :=
  String.mk (s.toList.map Char.toLower)

/--
Python full uppercase mapping of one character, as used by str.upper().
The table is complete for every character whose uppercase image contains
one of the letters Y, E or S — the only letters the source ever compares
an uppercased string against (the console gate's token YES): the ASCII
letters y, e, s map through the a-z shift of Char.toUpper, U+017F LATIN
SMALL LETTER LONG S maps to S, U+00DF sharp s maps to SS, U+FB05 and
U+FB06 (the st ligatures) map to ST, and U+1E99 (y with ring above) maps
to Y followed by the combining ring U+030A; per UnicodeData and
SpecialCasing no other character's uppercase contains Y, E or S.  Every
other character is mapped by the ASCII shift (identity outside a-z); its
real image may differ, but both the real and the modelled image then
avoid the letters Y, E and S entirely, so the comparison with the token
YES gives the same verdict on every string.
-/
def pyUpperChar (c : Char) : List Char :=
  if c.toNat = 223 then ['S', 'S']
  else if c.toNat = 64261 ∨ c.toNat = 64262 then ['S', 'T']
  else if c.toNat = 7833 then ['Y', '\u030A']
  else if c.toNat = 383 then ['S']
  else [Char.toUpper c]

/-- Python str.upper(): concatenation of the per-character full
uppercase mappings. -/
def pyUpper (s : String) : String :=
  String.mk ((s.toList.map pyUpperChar).flatten)

/-- Helper for single-character Python str.split(sep): accumulates the
current field (reversed) and cuts at each separator. -/
def splitCharAux (sep : Char) (acc : List Char) : List Char → List String
  | [] => [String.mk acc.reverse]
  | c :: rest =>
    if c = sep then String.mk acc.reverse :: splitCharAux sep [] rest
    else splitCharAux sep (c :: acc) rest

/-- Python line.split(sep) for a one-character separator: fields are not
collapsed, and the result is never empty. -/
def splitChar (sep : Char) (s : String) : List String :=
  splitCharAux sep [] s.toList

/-- Line-break characters recognised by Python str.splitlines(): U+000A,
U+000B, U+000C, U+000D, U+001C, U+001D, U+001E, U+0085, U+2028 and
U+2029 (a U+000D U+000A pair counts as one break). -/
def isPyLineBreak (c : Char) : Bool :=
  decide (c.toNat = 10 ∨ c.toNat = 11 ∨ c.toNat = 12 ∨ c.toNat = 13 ∨
    c.toNat = 28 ∨ c.toNat = 29 ∨ c.toNat = 30 ∨ c.toNat = 133 ∨
    c.toNat = 8232 ∨ c.toNat = 8233)

/-- Python str.splitlines(): split at every line-break character, with a
carriage-return/newline pair as a single break; no trailing empty line;
empty string gives an empty list. -/
def splitlinesAux (acc : List Char) : List Char → List String
  | [] => if acc = [] then [] else [String.mk acc.reverse]
  | '\r' :: '\n' :: rest => String.mk acc.reverse :: splitlinesAux [] rest
  | c :: rest =>
    if isPyLineBreak c then String.mk acc.reverse :: splitlinesAux [] rest
    else splitlinesAux (c :: acc) rest

/-- Python s.splitlines() on a whole string. -/
def pySplitlines (s : String) : List String :=
  splitlinesAux [] s.toList

/-- Python s.startswith(p), via the underlying character lists. -/
def listStarts : List Char → List Char → Bool
  | [], _ => true
  | _ :: _, [] => false
  | p :: ps, c :: cs => p = c && listStarts ps cs

/-- Python s.startswith(p). -/
def strStarts (s p : String) : Bool :=
  listStarts p.toList s.toList

/-- Characters of the class [A-Za-z0-9] in APPID_RE (source line 31). -/
def isAsciiAlnum (c : Char) : Bool :=
  ('A' ≤ c && c ≤ 'Z') || ('a' ≤ c && c ≤ 'z') || ('0' ≤ c && c ≤ '9')

/-- Characters of the class [A-Za-z0-9._-] in APPID_RE (source line 31). -/
def isIdChar (c : Char) : Bool :=
  isAsciiAlnum c || c = '.' || c = '_' || c = '-'

/--
APPID_RE.match(s) being truthy, for the compiled regex
r"^[A-Za-z0-9][A-Za-z0-9._-]*$" (source line 31): the string is
nonempty, its first character is ASCII alphanumeric, and every later
character is in the identifier class.  The source only ever applies the
match to strings that have been stripped of surrounding whitespace, on
which Python's end anchor (which would also accept a single trailing
newline) coincides with this full-match reading.
-/
def appidMatch (s : String) : Bool :=
  match s.toList with
  | [] => false
  | c :: cs => isAsciiAlnum c && cs.all isIdChar

/-- Outcome of one subprocess.run call, as supplied by the environment:
raw exit code, raw stdout, raw stderr (before the stripping done by
runCmd). -/
structure CmdResult where
  code : Int
  stdout : String
  stderr : String

/-- One observable side effect of a request: a synchronous
subprocess.run invocation, or a detached subprocess.Popen spawn. -/
inductive Effect where
  | runc (args : List String)
  | popen (args : List String)
deriving DecidableEq

/-- External world as the bridge observes it: whether the flatpak tool
resolves on PATH, the outcome of each subprocess invocation, the
display/dialog-tool capabilities, the operator's console input line, and
whether a detached Popen spawn succeeds (with the exception text when it
does not). -/
structure Env where
  hasFlatpak : Bool
  oracle : List String → CmdResult
  display : Bool
  kdialog : Bool
  zenity : Bool
  stdinLine : String
  launchOk : Bool
  launchErr : String

/-- runCmd (source lines 33-35): run the argument list, return the exit
code and the whitespace-stripped stdout and stderr, recording the
invocation in the effect trace. -/
def runCmd (env : Env) (args : List String) : (Int × String × String) × List Effect :=
  let r := env.oracle args
  ((r.code, pyStrip r.stdout, pyStrip r.stderr), [Effect.runc args])

/-- has_flatpak (source lines 37-38): shutil.which("flatpak") resolves. -/
def has_flatpak (env : Env) : Bool :=
  env.hasFlatpak

/-- Argument list of the flathub remote-add command (source lines
55-58). -/
def remoteAddCmd : List String :=
  ["flatpak", "--user", "remote-add", "--if-not-exists",
   "flathub", "https://dl.flathub.org/repo/flathub.flatpakrepo"]

/-- ensure_flathub_user (source lines 51-58): no-op without the tool;
otherwise run the remote-add command and discard its result. -/
def ensure_flathub_user (env : Env) : Unit × List Effect :=
  if has_flatpak env = false then ((), [])
  else ((), (runCmd env remoteAddCmd).2)

/-- flathub_configured (source lines 40-49): false without the tool or on
a failing remotes query; otherwise true when some line of the output is
exactly flathub or starts with the token flathub followed by a space. -/
def flathub_configured (env : Env) : Bool × List Effect :=
  if has_flatpak env = false then (false, [])
  else
    match runCmd env ["flatpak", "--user", "remotes"] with
    | ((code, out, _), fx) =>
      if code ≠ 0 then (false, fx)
      else
        ((pySplitlines out).any
          (fun l => pyStrip l = "flathub" || strStarts (pyStrip l) "flathub "),
         fx)

/-- One parsed installed-app record (the dict built at source lines
92-99). -/
structure App where
  id : String
  name : String
  version : String
  branch : String
  origin : String
  installation : String
deriving DecidableEq

/-- Extended column set tried first by list_flatpak_apps (source line
68). -/
def cols1 : List String :=
  ["application", "name", "version", "branch", "origin", "installation"]

/-- Reduced column set tried second by list_flatpak_apps (source line
69). -/
def cols2 : List String :=
  ["application", "name", "version", "branch", "origin"]

/-- Argument list of the listing command for a column set (source line
73). -/
def listCmd (cols : List String) : List String :=
  ["flatpak", "list", "--app", "--columns=" ++ String.intercalate "," cols]

/-- Header tokens recognised at source line 84. -/
def headerTokens : List String :=
  ["application", "application id"]

/-- String value of a row dictionary entry with the x-or-y default: the
looked-up value when the key is present, empty string otherwise (row.get
with the or-empty idiom of source lines 89 and 94-97). -/
def rowGet (row : List (String × String)) (k : String) : String :=
  (row.lookup k).getD ""

/-- Stray-header test of source line 84: the first tab field of the
line, stripped and lower-cased, reads as one of the header tokens. -/
def isHeaderLine (line : String) : Bool :=
  headerTokens.contains (asciiLower (pyStrip ((splitChar '\t' line).headD "")))

/-- Padding loop of source lines 86-87: append empty strings until the
field list is at least as long as the column list. -/
def padFields (cols : List String) (parts : List String) : List String :=
  parts ++ List.replicate (cols.length - parts.length) ""

/-- Loop body of list_flatpak_apps over one output line (source lines
79-99): skip blank lines, split on tab, skip stray header lines, pad
missing trailing fields with empty strings, zip with the column names
(dict(zip(cols, parts))), skip rows with an empty application id, and
otherwise build the record.  The installation field reads the row entry
only when the key exists, else empty string (source line 98). -/
def parseRow (cols : List String) (line : String) : Option App :=
  if pyStrip line = "" then none
  else
    let parts := splitChar '\t' line
    if isHeaderLine line then none
    else
      let padded := padFields cols parts
      let row := cols.zip padded
      let appId := pyStrip (rowGet row "application")
      if appId = "" then none
      else
        some
          { id := appId
            name := pyStrip (rowGet row "name")
            version := pyStrip (rowGet row "version")
            branch := pyStrip (rowGet row "branch")
            origin := pyStrip (rowGet row "origin")
            installation := ((row.lookup "installation").map pyStrip).getD "" }

/-- Rows produced from a list of output lines. -/
def parseLines (cols : List String) (lines : List String) : List App :=
  lines.filterMap (parseRow cols)

/-- Rows produced from one command output (source: for line in
out.splitlines()). -/
def parseListing (cols : List String) (out : String) : List App :=
  parseLines cols (pySplitlines out)

/-- Python string comparison (lexicographic by code point) on character
lists. -/
def listLt : List Char → List Char → Bool
  | _, [] => false
  | [], _ :: _ => true
  | a :: as, b :: bs =>
    a.toNat < b.toNat || (a.toNat = b.toNat && listLt as bs)

/-- Python s less-than t on strings. -/
def strLt (s t : String) : Bool :=
  listLt s.toList t.toList

/-- Sort key of source line 101: the lower-cased display name, falling
back to the id when the name is blank. -/
def sortKey (a : App) : String :=
  asciiLower (pyOr a.name (pyOr a.id ""))

/-- Stable insertion of one record into an already sorted list: the new
record goes after every existing record whose key is strictly smaller or
equal. -/
def insertApp (a : App) : List App → List App
  | [] => [a]
  | b :: bs => if strLt (sortKey b) (sortKey a) then b :: insertApp a bs else a :: b :: bs

/-- The stable ascending key sort of source line 101 (Python list.sort
with a key function is exactly the stable ascending sort by that key;
a stable insertion sort computes the same list). -/
def sortApps (l : List App) : List App :=
  l.foldr insertApp []

/-- list_flatpak_apps (source lines 61-104): empty list without the
tool; otherwise try the extended column set, then the reduced one; a
failing attempt records its stderr-or-stdout as the last error; if both
fail, fail with the aggregate message built at source line 104. -/
def list_flatpak_apps (env : Env) : Except String (List App) × List Effect :=
  if has_flatpak env = false then (Except.ok [], [])
  else
    match runCmd env (listCmd cols1) with
    | ((c1, o1, _e1), fx1) =>
      if c1 ≠ 0 then
        match runCmd env (listCmd cols2) with
        | ((c2, o2, e2), fx2) =>
          if c2 ≠ 0 then
            (Except.error ("Could not list flatpaks: " ++ pyOr (pyOr e2 o2) "unknown error"),
             fx1 ++ fx2)
          else (Except.ok (sortApps (parseListing cols2 o2)), fx1 ++ fx2)
      else (Except.ok (sortApps (parseListing cols1 o1)), fx1)

/-- is_flatpak_installed (source lines 106-110): false without the tool,
else the info command exits with code zero. -/
def is_flatpak_installed (env : Env) (appId : String) : Bool × List Effect :=
  if has_flatpak env = false then (false, [])
  else
    match runCmd env ["flatpak", "info", appId] with
    | ((code, _, _), fx) => (code == 0, fx)

/-- launch_flatpak (source lines 112-118): detached Popen of the run
command; on success true with empty error, on a spawn exception false
with the exception text and no process spawned. -/
def launch_flatpak (env : Env) (appId : String) : (Bool × String) × List Effect :=
  if env.launchOk then ((true, ""), [Effect.popen ["flatpak", "run", appId]])
  else ((false, env.launchErr), [])

/-- Console branch of gui_confirm (source lines 129-131): read one stdin
line, strip it, uppercase it, compare with the literal YES. -/
def consoleConfirm (env : Env) : Bool :=
  pyUpper (pyStrip env.stdinLine) == "YES"

/-- gui_confirm (source lines 119-131): with a display and kdialog, map
the dialog exit status to approval; else with a display and zenity the
same; otherwise prompt on the console. -/
def gui_confirm (env : Env) (title message : String) : Bool × List Effect :=
  if env.display then
    if env.kdialog then
      match runCmd env ["kdialog", "--title", title, "--yesno", message] with
      | ((code, _, _), fx) => (code == 0, fx)
    else if env.zenity then
      match runCmd env ["zenity", "--question", "--title", title, "--text", message] with
      | ((code, _, _), fx) => (code == 0, fx)
    else (consoleConfirm env, [])
  else (consoleConfirm env, [])

/-- JSON values, as produced by json.loads on a request body and as
serialised by json.dumps in responses. -/
inductive Json where
  | null
  | bool (b : Bool)
  | num (n : Int)
  | str (s : String)
  | arr (xs : List Json)
  | obj (fields : List (String × Json))

/-- Python repr of a JSON value, used by str() on containers.  String
escaping inside repr is elided (no theorem depends on it); numbers are
restricted to integers as everywhere in this model. -/
def pyRepr : Json → String
  | Json.null => "None"
  | Json.bool b => if b then "True" else "False"
  | Json.num n => toString n
  | Json.str s => "\x27" ++ s ++ "\x27"
  | Json.arr xs =>
    "[" ++ String.intercalate ", " (xs.attach.map (fun x => pyRepr x.1)) ++ "]"
  | Json.obj fs =>
    "\x7b" ++
      String.intercalate ", "
        (fs.attach.map (fun kv => "\x27" ++ kv.1.1 ++ "\x27: " ++ pyRepr kv.1.2)) ++
    "\x7d"
decreasing_by
  · simp_wf
    exact Nat.lt_add_left 1 (List.sizeOf_lt_of_mem x.2)
  · simp_wf
    have h := List.sizeOf_lt_of_mem kv.2
    rcases kv with ⟨⟨a, b⟩, hk⟩
    simp only [Prod.mk.sizeOf_spec] at h ⊢
    omega

/-- Python str() of a JSON value (the coercion at source lines 1994 and
2040): identity on strings, repr-like text otherwise. -/
def pyStr : Json → String
  | Json.str s => s
  | v => pyRepr v

/-- Request body as handed to _read_json: no body bytes, bytes that
json.loads rejects, or bytes that json.loads parses to a value. -/
inductive Body where
  | empty
  | malformed
  | json (v : Json)

/-- _read_json (source lines 1934-1942): empty raw data gives an empty
object, a parse failure gives an empty object, otherwise the parsed
value (whatever shape it has). -/
def readJson : Body → Json
  | Body.empty => Json.obj []
  | Body.malformed => Json.obj []
  | Body.json v => v

/-- payload.get(k, default): defined only when the payload is an object
(a Python dict); on any other payload .get raises AttributeError, which
the handler does not catch — modelled as Except.error.  Object keys are
assumed distinct, as json.loads produces. -/
def dictGet (payload : Json) (k : String) (dflt : Json) : Except Unit Json :=
  match payload with
  | Json.obj fs => Except.ok ((fs.lookup k).getD dflt)
  | _ => Except.error ()

/-- HTTP method of an incoming request (the bridge defines handlers for
GET and POST only). -/
inductive Method where
  | get
  | post
deriving DecidableEq

/-- One incoming HTTP request, as the handler observes it: method, the
path component of the URL (urlparse(self.path).path), the
X-Installer-Token header when present, and the request body. -/
structure Request where
  method : Method
  path : String
  token : Option String
  body : Body

/-- Body of an HTTP response: a JSON payload from _send_json, or the
rendered UI page served for the root paths. -/
inductive RespBody where
  | json (v : Json)
  | html

/-- One HTTP response: status code and body. -/
abbrev Response := Nat × RespBody

/-- JSON error payload used throughout the handlers. -/
def jErr (msg : String) : Json :=
  Json.obj [("ok", Json.bool false), ("error", Json.str msg)]

/-- JSON serialisation of one parsed app record (the dict of source
lines 92-99, sent back by the list endpoint). -/
def appJson (a : App) : Json :=
  Json.obj
    [("id", Json.str a.id), ("name", Json.str a.name),
     ("version", Json.str a.version), ("branch", Json.str a.branch),
     ("origin", Json.str a.origin), ("installation", Json.str a.installation)]

/-- X-Installer-Token header value with the empty-string default of
self.headers.get (source lines 1967 and 1987). -/
def reqToken (req : Request) : String :=
  req.token.getD ""

/-- do_GET (source lines 1944-1983): serve the UI page on the root
paths, the unauthenticated status endpoint, the token-gated flatpak
listing (converting a listing failure into a 500 error payload), and 404
on every other path. -/
def do_GET (env : Env) (st : String) (req : Request) : Except Unit Response × List Effect :=
  if req.path = "/" ∨ req.path = "/index.html" then
    (Except.ok (200, RespBody.html), [])
  else if req.path = "/status" then
    match flathub_configured env with
    | (fh, fx) =>
      (Except.ok (200, RespBody.json (Json.obj
        [("ok", Json.bool true), ("flatpak", Json.bool (has_flatpak env)),
         ("flathub", Json.bool fh), ("version", Json.str "all-in-one")])), fx)
  else if req.path = "/flatpak/list" then
    if reqToken req ≠ st then (Except.ok (401, RespBody.json (jErr "Bad token")), [])
    else if has_flatpak env = false then
      (Except.ok (500, RespBody.json (jErr "flatpak not installed")), [])
    else
      match list_flatpak_apps env with
      | (Except.ok apps, fx) =>
        (Except.ok (200, RespBody.json (Json.obj
          [("ok", Json.bool true), ("apps", Json.arr (apps.map appJson))])), fx)
      | (Except.error m, fx) =>
        (Except.ok (500, RespBody.json (jErr m)), fx)
  else (Except.ok (404, RespBody.json (jErr "Not found")), [])

/-- Argument list of the per-user install command (source line 2009). -/
def installCmd (appId : String) : List String :=
  ["flatpak", "--user", "install", "-y", "flathub", appId]

/-- Argument list of the update-all command (source line 2029). -/
def updateCmd : List String :=
  ["flatpak", "--user", "update", "-y"]

/-- Confirmation message of the install dialog (source line 2005). -/
def installMessage (appId : String) : String :=
  "Install Flatpak (user):\n\n" ++ appId ++ "\n\nRemote: flathub"

/-- do_POST (source lines 1985-2059): check the token before anything
else, then dispatch on the path.  The install and run endpoints read the
body, coerce the appId value through str() and strip it, validate it
against APPID_RE, and proceed; an unknown path gives 404.  A body that
json.loads parses to a non-object makes payload.get raise, which nothing
catches (Except.error). -/
def do_POST (env : Env) (st : String) (req : Request) : Except Unit Response × List Effect :=
  if reqToken req ≠ st then (Except.ok (401, RespBody.json (jErr "Bad token")), [])
  else if req.path = "/install" then
    match dictGet (readJson req.body) "appId" (Json.str "") with
    | Except.error _ => (Except.error (), [])
    | Except.ok v =>
      let appId := pyStrip (pyStr v)
      if appidMatch appId = false then
        (Except.ok (400, RespBody.json (jErr "Invalid appId")), [])
      else if has_flatpak env = false then
        (Except.ok (500, RespBody.json (jErr "flatpak not installed")), [])
      else
        match ensure_flathub_user env with
        | (_, fx1) =>
          match gui_confirm env "MujerOS Installer" (installMessage appId) with
          | (false, fx2) =>
            (Except.ok (200, RespBody.json (jErr "User cancelled")), fx1 ++ fx2)
          | (true, fx2) =>
            match runCmd env (installCmd appId) with
            | ((code, out, err), fx3) =>
              (Except.ok ((if code == 0 then 200 else 500), RespBody.json (Json.obj
                [("ok", Json.bool (code == 0)), ("appId", Json.str appId),
                 ("stdout", Json.str out), ("stderr", Json.str err)])),
               fx1 ++ fx2 ++ fx3)
  else if req.path = "/update" then
    if has_flatpak env = false then
      (Except.ok (500, RespBody.json (jErr "flatpak not installed")), [])
    else
      match ensure_flathub_user env with
      | (_, fx1) =>
        match gui_confirm env "MujerOS Installer" "Update ALL user Flatpaks now?" with
        | (false, fx2) =>
          (Except.ok (200, RespBody.json (jErr "User cancelled")), fx1 ++ fx2)
        | (true, fx2) =>
          match runCmd env updateCmd with
          | ((code, out, err), fx3) =>
            (Except.ok ((if code == 0 then 200 else 500), RespBody.json (Json.obj
              [("ok", Json.bool (code == 0)),
               ("stdout", Json.str out), ("stderr", Json.str err)])),
             fx1 ++ fx2 ++ fx3)
  else if req.path = "/flatpak/run" then
    match dictGet (readJson req.body) "appId" (Json.str "") with
    | Except.error _ => (Except.error (), [])
    | Except.ok v =>
      let appId := pyStrip (pyStr v)
      if appidMatch appId = false then
        (Except.ok (400, RespBody.json (jErr "Invalid appId")), [])
      else if has_flatpak env = false then
        (Except.ok (500, RespBody.json (jErr "flatpak not installed")), [])
      else
        match is_flatpak_installed env appId with
        | (false, fx1) =>
          (Except.ok (400, RespBody.json (jErr "App not installed")), fx1)
        | (true, fx1) =>
          match launch_flatpak env appId with
          | ((true, _), fx2) =>
            (Except.ok (200, RespBody.json (Json.obj
              [("ok", Json.bool true), ("appId", Json.str appId)])), fx1 ++ fx2)
          | ((false, err), fx2) =>
            (Except.ok (500, RespBody.json (jErr (pyOr err "Failed to launch"))),
             fx1 ++ fx2)
  else (Except.ok (404, RespBody.json (jErr "Not found")), [])

/-- One request dispatched to the handler method matching its HTTP
method. -/
def handle (env : Env) (st : String) (req : Request) : Except Unit Response × List Effect :=
  match req.method with
  | Method.get => do_GET env st req
  | Method.post => do_POST env st req

/-- Paths for which some handler branch is defined (the spec's endpoint
table: UI roots, status, listing, install, update, run). -/
def definedPaths : List String :=
  ["/", "/index.html", "/status", "/flatpak/list", "/install", "/update", "/flatpak/run"]

/-- Concrete environment: tool present, every subprocess succeeds with
empty output, no display, console operator approves, detached launches
succeed. -/
def envYes : Env :=
  { hasFlatpak := true
    oracle := fun _ => { code := 0, stdout := "", stderr := "" }
    display := false
    kdialog := false
    zenity := false
    stdinLine := "YES"
    launchOk := true
    launchErr := "" }

/-- Concrete environment like envYes but the console operator declines. -/
def envNo : Env :=
  { envYes with stdinLine := "no" }

/-- Concrete environment like envYes but the flathub remote-add command
fails with exit code 1. -/
def envAddFails : Env :=
  { envYes with
    oracle := fun args =>
      if args = remoteAddCmd then { code := 1, stdout := "", stderr := "boom" }
      else { code := 0, stdout := "", stderr := "" } }

/-- Concrete environment like envYes but both listing invocations fail. -/
def envListFails : Env :=
  { envYes with
    oracle := fun args =>
      if args = listCmd cols1 then
        { code := 1, stdout := "", stderr := "unknown column" }
      else if args = listCmd cols2 then
        { code := 1, stdout := "", stderr := "daemon down" }
      else { code := 0, stdout := "", stderr := "" } }

/-! Helper lemmas shared by the claim theorems. -/

/-- Every effect of the confirmation gate is one of the two dialog-tool
invocations; in particular the gate never runs a flatpak command. -/
theorem gui_confirm_effects (env : Env) (t m : String) :
    ∀ e ∈ (gui_confirm env t m).2,
      e = Effect.runc ["kdialog", "--title", t, "--yesno", m] ∨
      e = Effect.runc ["zenity", "--question", "--title", t, "--text", m] := by
  cases hd : env.display <;> cases hk : env.kdialog <;> cases hz : env.zenity <;>
    simp [gui_confirm, runCmd, hd, hk, hz]

/-- Inserting into the stable sort permutes cons. -/
theorem insertApp_perm (a : App) (l : List App) : (insertApp a l).Perm (a :: l) := by
  induction l with
  | nil => exact List.Perm.refl _
  | cons b bs ih =>
    unfold insertApp
    cases h : strLt (sortKey b) (sortKey a)
    · simp only [Bool.false_eq_true, if_false]
      exact List.Perm.refl _
    · simp only [if_true]
      exact (ih.cons b).trans (List.Perm.swap a b bs)

/-- The stable sort of the listing is a permutation of its input. -/
theorem sortApps_perm (l : List App) : (sortApps l).Perm l := by
  induction l with
  | nil => exact List.Perm.refl _
  | cons a as ih =>
    exact (insertApp_perm a (sortApps as)).trans (ih.cons a)

/-- Lookup over a zip misses every key that is not a column name. -/
theorem lookup_zip_not_mem (ks vs : List String) (k : String) (hk : k ∉ ks) :
    (ks.zip vs).lookup k = none := by
  rw [List.lookup_eq_none_iff]
  intro p hp
  rcases p with ⟨a, b⟩
  have ha : a ∈ ks := (List.of_mem_zip hp).1
  have hka : k ≠ a := fun h => hk (h ▸ ha)
  simpa using hka

/-- A record parsed without an installation column has an empty
installation field. -/
theorem parseRow_installation (cols : List String) (line : String) (a : App)
    (hc : "installation" ∉ cols) (h : parseRow cols line = some a) :
    a.installation = "" := by
  unfold parseRow at h
  dsimp only at h
  split at h
  · cases h
  · split at h
    · cases h
    · split at h
      · cases h
      · obtain rfl := Option.some.inj h
        simp [lookup_zip_not_mem cols _ "installation" hc]

/-- A stray header line parses to no record, for any column set. -/
theorem parseRow_header_none (cols : List String) (line : String)
    (h : isHeaderLine line = true) : parseRow cols line = none := by
  unfold parseRow
  split
  · rfl
  · simp [h]

/-! Claim theorems. -/

/-- Concrete counterexample request for C1: correct token, appId with a
leading space. -/
def reqC1 : Request :=
  ⟨Method.post, "/install", some "tok",
   Body.json (Json.obj [("appId", Json.str " abc")])⟩

/--
C1 (counterexample): the string " abc" does not match the identifier
grammar, yet the install request carrying it with the correct token is
not rejected with 400 Invalid appId: the handler strips the value first,
"abc" passes validation, and the request runs the remote-add and install
subprocesses (nonempty effect trace) and answers 200 ok.
-/
theorem c1_counterexample :
    appidMatch " abc" = false ∧
    (handle envYes "tok" reqC1).1 =
      Except.ok (200, RespBody.json (Json.obj
        [("ok", Json.bool true), ("appId", Json.str "abc"),
         ("stdout", Json.str ""), ("stderr", Json.str "")])) ∧
    (handle envYes "tok" reqC1).2 =
      [Effect.runc remoteAddCmd, Effect.runc (installCmd "abc")] ∧
    (handle envYes "tok" reqC1).2 ≠ [] :=
  ⟨by decide, rfl, by decide, by decide⟩

/--
C1 (amended): for every string S whose whitespace-stripped form does not
match the grammar of APPID_RE, a POST to /install or /flatpak/run with
the correct token and appId = S is rejected with 400 Invalid appId and
an empty effect trace, so no subprocess is invoked on that request.
-/
theorem c1_invalid_appid_rejected (env : Env) (st : String) (req : Request) (S : String)
    (hm : req.method = Method.post)
    (hp : req.path = "/install" ∨ req.path = "/flatpak/run")
    (ht : reqToken req = st)
    (hb : req.body = Body.json (Json.obj [("appId", Json.str S)]))
    (hv : appidMatch (pyStrip S) = false) :
    handle env st req = (Except.ok (400, RespBody.json (jErr "Invalid appId")), []) := by
  rcases req with ⟨m, p, t, b⟩
  simp only at hm hp hb
  subst hm; subst hb
  simp only [reqToken] at ht
  rcases hp with hp | hp <;> subst hp <;>
    simp [handle, do_POST, reqToken, ht, readJson, dictGet, List.lookup, pyStr, hv]

/-- Concrete witness request for C1: a path-traversal appId. -/
def reqC1w : Request :=
  ⟨Method.post, "/install", some "tok",
   Body.json (Json.obj [("appId", Json.str "../etc/passwd")])⟩

/-- Witness for the amended C1 at the concrete input ../etc/passwd. -/
theorem c1_witness :
    handle envYes "tok" reqC1w = (Except.ok (400, RespBody.json (jErr "Invalid appId")), []) :=
  c1_invalid_appid_rejected envYes "tok" reqC1w "../etc/passwd" rfl (Or.inl rfl) rfl rfl
    (by decide)

/--
C2 (confirmed): for every request to one of the four protected endpoints
(GET /flatpak/list, POST /install, POST /update, POST /flatpak/run)
whose X-Installer-Token header is absent or differs from the session
token (which is never empty, being a token_urlsafe(24) string), the
response is exactly 401 Bad token and the effect trace is empty, so no
subprocess is invoked.
-/
theorem c2_bad_token_rejected (env : Env) (st : String) (req : Request)
    (hst : st ≠ "")
    (hend : (req.method = Method.get ∧ req.path = "/flatpak/list") ∨
            (req.method = Method.post ∧
              (req.path = "/install" ∨ req.path = "/update" ∨ req.path = "/flatpak/run")))
    (htok : ∀ t, req.token = some t → t ≠ st) :
    handle env st req = (Except.ok (401, RespBody.json (jErr "Bad token")), []) := by
  rcases req with ⟨m, p, t, b⟩
  simp only at hend htok
  have hne : ¬t.getD "" = st := by
    cases t with
    | none => exact fun h => hst h.symm
    | some x => exact htok x rfl
  rcases hend with ⟨hm, hp⟩ | ⟨hm, hp⟩
  · subst hm; subst hp
    simp [handle, do_GET, reqToken, hne]
  · subst hm
    rcases hp with hp | hp | hp <;> subst hp <;>
      simp [handle, do_POST, reqToken, hne]

/-- Concrete witness request for C2: listing request with no token. -/
def reqC2w : Request :=
  ⟨Method.get, "/flatpak/list", none, Body.empty⟩

/-- Witness for C2 at a concrete tokenless listing request. -/
theorem c2_witness :
    handle envYes "tok" reqC2w = (Except.ok (401, RespBody.json (jErr "Bad token")), []) :=
  c2_bad_token_rejected envYes "tok" reqC2w (by decide) (Or.inl ⟨rfl, rfl⟩)
    (fun t h => nomatch h)

/-- Concrete counterexample request for C4: unknown path, POST, missing
token. -/
def reqC4 : Request :=
  ⟨Method.post, "/definitely-not-an-endpoint", none, Body.empty⟩

/--
C4 (counterexample): a POST to an unknown path without a token is
answered 401 Bad token, not 404 Not found, because do_POST checks the
token before dispatching on the path.
-/
theorem c4_counterexample :
    ("/definitely-not-an-endpoint" ∉ definedPaths) ∧
    handle envYes "tok" reqC4 = (Except.ok (401, RespBody.json (jErr "Bad token")), []) :=
  ⟨by decide, rfl⟩

/--
C4 (amended): a request for a path outside the defined endpoint set is
answered 404 Not found with no subprocess invoked, for every GET request
regardless of token, and for every POST request that passes the token
check (a POST with a bad or missing token is answered 401 first).
-/
theorem c4_unknown_path_404 (env : Env) (st : String) (req : Request)
    (hp : req.path ∉ definedPaths)
    (hm : req.method = Method.get ∨ (req.method = Method.post ∧ reqToken req = st)) :
    handle env st req = (Except.ok (404, RespBody.json (jErr "Not found")), []) := by
  rcases req with ⟨m, p, t, b⟩
  simp only [definedPaths, List.mem_cons, List.mem_singleton, not_or] at hp
  obtain ⟨h1, h2, h3, h4, h5, h6, h7⟩ := hp
  simp only at hm
  rcases hm with hm | ⟨hm, ht⟩ <;> subst hm
  · simp [handle, do_GET, h1, h2, h3, h4]
  · simp only [reqToken] at ht
    simp [handle, do_POST, reqToken, ht, h5, h6, h7]

/-- Concrete witness request for C4: unknown path over GET. -/
def reqC4w : Request :=
  ⟨Method.get, "/nope", none, Body.empty⟩

/-- Witness for the amended C4 at a concrete unknown GET path. -/
theorem c4_witness :
    handle envYes "tok" reqC4w = (Except.ok (404, RespBody.json (jErr "Not found")), []) :=
  c4_unknown_path_404 envYes "tok" reqC4w (by decide) (Or.inl rfl)

/-- Concrete counterexample request for C3: valid appId under a
declining operator. -/
def reqC3 : Request :=
  ⟨Method.post, "/install", some "tok",
   Body.json (Json.obj [("appId", Json.str "org.x")])⟩

/--
C3 (counterexample): with the tool present and the operator declining,
the install request is answered 200 User cancelled, but the effect
trace already contains the flathub remote-add subprocess, which runs
before the confirmation gate: it is not true that no subprocess runs on
that request.
-/
theorem c3_counterexample :
    handle envNo "tok" reqC3 =
      (Except.ok (200, RespBody.json (jErr "User cancelled")), [Effect.runc remoteAddCmd]) ∧
    [Effect.runc remoteAddCmd] ≠ ([] : List Effect) :=
  ⟨rfl, by decide⟩

/--
C3 (amended): for a POST /install with correct token, tool present and
a valid appId, when the confirmation gate rejects, the response is 200
with ok false and the explicit reason User cancelled, and the install
subprocess is not run on that request; the channel-configuration
subprocess (and a dialog-tool subprocess, if any) may already have run
before the gate.
-/
theorem c3_user_rejection (env : Env) (st : String) (req : Request) (S : String)
    (hm : req.method = Method.post)
    (hp : req.path = "/install")
    (ht : reqToken req = st)
    (hb : req.body = Body.json (Json.obj [("appId", Json.str S)]))
    (hv : appidMatch (pyStrip S) = true)
    (hfp : env.hasFlatpak = true)
    (hconf : (gui_confirm env "MujerOS Installer" (installMessage (pyStrip S))).1 = false) :
    handle env st req =
      (Except.ok (200, RespBody.json (jErr "User cancelled")),
       Effect.runc remoteAddCmd ::
         (gui_confirm env "MujerOS Installer" (installMessage (pyStrip S))).2) ∧
    Effect.runc (installCmd (pyStrip S)) ∉ (handle env st req).2 := by
  rcases req with ⟨m, p, t, b⟩
  simp only at hm hp hb
  subst hm; subst hp; subst hb
  simp only [reqToken] at ht
  rcases hgc : gui_confirm env "MujerOS Installer" (installMessage (pyStrip S)) with ⟨conf, fx2⟩
  rw [hgc] at hconf
  simp only at hconf
  subst hconf
  have hmain :
      handle env st
        ⟨Method.post, "/install", t, Body.json (Json.obj [("appId", Json.str S)])⟩ =
      (Except.ok (200, RespBody.json (jErr "User cancelled")),
       Effect.runc remoteAddCmd :: fx2) := by
    simp [handle, do_POST, reqToken, ht, readJson, dictGet, List.lookup, pyStr, hv, hfp,
      has_flatpak, ensure_flathub_user, runCmd, hgc]
  refine ⟨by simpa using hmain, ?_⟩
  rw [hmain]
  intro hmem
  rcases List.mem_cons.mp hmem with h | h
  · simp [installCmd, remoteAddCmd] at h
  · have h2 := gui_confirm_effects env "MujerOS Installer" (installMessage (pyStrip S))
      (Effect.runc (installCmd (pyStrip S))) (by rw [hgc]; exact h)
    simp [installCmd] at h2

/-- Concrete witness request for C3: a valid install request for
org.videolan.VLC. -/
def reqC3w : Request :=
  ⟨Method.post, "/install", some "tok",
   Body.json (Json.obj [("appId", Json.str "org.videolan.VLC")])⟩

/-- Witness for the amended C3 under the declining console operator. -/
theorem c3_witness :
    handle envNo "tok" reqC3w =
      (Except.ok (200, RespBody.json (jErr "User cancelled")),
       Effect.runc remoteAddCmd ::
         (gui_confirm envNo "MujerOS Installer"
           (installMessage (pyStrip "org.videolan.VLC"))).2) ∧
    Effect.runc (installCmd (pyStrip "org.videolan.VLC")) ∉
      (handle envNo "tok" reqC3w).2 :=
  c3_user_rejection envNo "tok" reqC3w "org.videolan.VLC" rfl rfl rfl rfl
    (by decide) rfl (by decide)

/--
C10 (confirmed): the channel-configuration step never reports failure.
It is a pure no-op when the tool is absent and is fully independent of
the subprocess oracle (the exit status and output of remote-add are
discarded); moreover, with the tool present and remote-add failing, an
install request with an approving gate still runs the install
subprocess, and an update request with an approving gate still runs the
update subprocess.
-/
theorem c10_channel_add_ignored :
    (∀ env env2 : Env, env.hasFlatpak = env2.hasFlatpak →
        ensure_flathub_user env = ensure_flathub_user env2) ∧
    (∀ (env : Env) (st : String) (req : Request) (S : String),
        req.method = Method.post → req.path = "/install" → reqToken req = st →
        req.body = Body.json (Json.obj [("appId", Json.str S)]) →
        appidMatch (pyStrip S) = true → env.hasFlatpak = true →
        (env.oracle remoteAddCmd).code ≠ 0 →
        (gui_confirm env "MujerOS Installer" (installMessage (pyStrip S))).1 = true →
        Effect.runc (installCmd (pyStrip S)) ∈ (handle env st req).2) ∧
    (∀ (env : Env) (st : String) (req : Request),
        req.method = Method.post → req.path = "/update" → reqToken req = st →
        env.hasFlatpak = true →
        (env.oracle remoteAddCmd).code ≠ 0 →
        (gui_confirm env "MujerOS Installer" "Update ALL user Flatpaks now?").1 = true →
        Effect.runc updateCmd ∈ (handle env st req).2) := by
  refine ⟨?_, ?_, ?_⟩
  · intro env env2 h
    simp [ensure_flathub_user, has_flatpak, runCmd, h]
  · intro env st req S hm hp ht hb hv hfp _hfail hconf
    rcases req with ⟨m, p, t, b⟩
    simp only at hm hp hb
    subst hm; subst hp; subst hb
    simp only [reqToken] at ht
    rcases hgc : gui_confirm env "MujerOS Installer" (installMessage (pyStrip S)) with ⟨conf, fx2⟩
    rw [hgc] at hconf
    simp only at hconf
    subst hconf
    simp [handle, do_POST, reqToken, ht, readJson, dictGet, List.lookup, pyStr, hv, hfp,
      has_flatpak, ensure_flathub_user, runCmd, hgc]
  · intro env st req hm hp ht hfp _hfail hconf
    rcases req with ⟨m, p, t, b⟩
    simp only at hm hp
    subst hm; subst hp
    simp only [reqToken] at ht
    rcases hgc : gui_confirm env "MujerOS Installer" "Update ALL user Flatpaks now?" with ⟨conf, fx2⟩
    rw [hgc] at hconf
    simp only at hconf
    subst hconf
    simp [handle, do_POST, reqToken, ht, hfp,
      has_flatpak, ensure_flathub_user, runCmd, hgc]

/-- Concrete witness request for C10: install under a failing
remote-add. -/
def reqC10i : Request :=
  ⟨Method.post, "/install", some "tok",
   Body.json (Json.obj [("appId", Json.str "org.x")])⟩

/-- Concrete witness request for C10: update under a failing
remote-add. -/
def reqC10u : Request :=
  ⟨Method.post, "/update", some "tok", Body.empty⟩

/-- Witness for C10: with remote-add failing (exit 1), the channel step
is unchanged between oracles and both the install and the update
subprocess still run. -/
theorem c10_witness :
    ensure_flathub_user envAddFails = ensure_flathub_user envYes ∧
    Effect.runc (installCmd (pyStrip "org.x")) ∈ (handle envAddFails "tok" reqC10i).2 ∧
    Effect.runc updateCmd ∈ (handle envAddFails "tok" reqC10u).2 := by
  obtain ⟨h1, h2, h3⟩ := c10_channel_add_ignored
  exact ⟨h1 envAddFails envYes rfl,
    h2 envAddFails "tok" reqC10i "org.x" rfl rfl rfl rfl (by decide) rfl (by decide) (by decide),
    h3 envAddFails "tok" reqC10u rfl rfl rfl rfl (by decide) (by decide)⟩

/--
C5 (confirmed): rows are split on the tab character and padded: for any
column set, every field position beyond the physical fields of the row
reads as the empty string after padding, rather than an error; and with
the reduced column set (no installation column) every record of the
listing has an empty installation field.
-/
theorem c5_missing_fields_empty :
    (∀ (cols : List String) (line : String) (i : Nat),
        (splitChar '\t' line).length ≤ i → i < cols.length →
        (padFields cols (splitChar '\t' line))[i]? = some "") ∧
    (∀ (out : String) (a : App), a ∈ sortApps (parseListing cols2 out) →
        a.installation = "") := by
  constructor
  · intro cols line i hle hlt
    unfold padFields
    rw [List.getElem?_append_right hle, List.getElem?_replicate, if_pos (by omega)]
  · intro out a ha
    have ha2 : a ∈ parseListing cols2 out := ((sortApps_perm _).mem_iff).mp ha
    obtain ⟨line, _hline, hrow⟩ := List.mem_filterMap.mp ha2
    exact parseRow_installation cols2 line a (by decide) hrow

/-- Witness for C5: a two-field row padded under the extended column set
reads empty at the installation position, and the record parsed from a
three-field row under the reduced column set has an empty installation
field. -/
theorem c5_witness :
    (padFields cols1 (splitChar '\t' "org.x\tX"))[5]? = some "" ∧
    ({ id := "org.x", name := "Xapp", version := "1.0", branch := "", origin := "",
       installation := "" } : App).installation = "" :=
  ⟨c5_missing_fields_empty.1 cols1 "org.x\tX" 5 (by decide) (by decide),
   c5_missing_fields_empty.2 "org.x\tXapp\t1.0"
     { id := "org.x", name := "Xapp", version := "1.0", branch := "", origin := "",
       installation := "" } (by decide)⟩

/--
C6 (confirmed): lines whose first tab field, stripped and lower-cased,
reads as a header token (application or application id) contribute no
record: the parse of any list of lines equals the parse of those lines
with all header lines filtered out, for every column set.
-/
theorem c6_header_rows_excluded (cols : List String) (lines : List String) :
    parseLines cols lines = parseLines cols (lines.filter (fun l => !(isHeaderLine l))) := by
  induction lines with
  | nil => rfl
  | cons l ls ih =>
    simp only [parseLines] at ih ⊢
    cases hl : isHeaderLine l
    · simp [List.filter_cons, hl, List.filterMap_cons, ih]
    · have hnone := parseRow_header_none cols l hl
      simp [List.filter_cons, hl, List.filterMap_cons, hnone, ih]

/--
C7 (confirmed): when both column-set attempts of the listing fail
(nonzero exit codes), list_flatpak_apps fails with the aggregate message
built from the last attempt's stripped stderr-or-stdout (or the text
unknown error when that is empty), and the /flatpak/list endpoint with
the correct token converts the failure into a structured 500 response
with that message instead of propagating an exception.
-/
theorem c7_listing_aggregate_failure (env : Env) (st : String) (req : Request)
    (hm : req.method = Method.get)
    (hp : req.path = "/flatpak/list")
    (ht : reqToken req = st)
    (hfp : env.hasFlatpak = true)
    (h1 : (env.oracle (listCmd cols1)).code ≠ 0)
    (h2 : (env.oracle (listCmd cols2)).code ≠ 0) :
    (list_flatpak_apps env).1 =
      Except.error ("Could not list flatpaks: " ++
        pyOr (pyOr (pyStrip (env.oracle (listCmd cols2)).stderr)
                   (pyStrip (env.oracle (listCmd cols2)).stdout)) "unknown error") ∧
    handle env st req =
      (Except.ok (500, RespBody.json (jErr ("Could not list flatpaks: " ++
        pyOr (pyOr (pyStrip (env.oracle (listCmd cols2)).stderr)
                   (pyStrip (env.oracle (listCmd cols2)).stdout)) "unknown error"))),
       [Effect.runc (listCmd cols1), Effect.runc (listCmd cols2)]) := by
  rcases req with ⟨m, p, t, b⟩
  simp only at hm hp
  subst hm; subst hp
  simp only [reqToken] at ht
  have hlist : list_flatpak_apps env =
      (Except.error ("Could not list flatpaks: " ++
        pyOr (pyOr (pyStrip (env.oracle (listCmd cols2)).stderr)
                   (pyStrip (env.oracle (listCmd cols2)).stdout)) "unknown error"),
       [Effect.runc (listCmd cols1), Effect.runc (listCmd cols2)]) := by
    simp [list_flatpak_apps, runCmd, has_flatpak, hfp, h1, h2]
  refine ⟨by rw [hlist], ?_⟩
  simp [handle, do_GET, reqToken, ht, has_flatpak, hfp, hlist]

/-- Concrete witness request for C7: an authorised listing request. -/
def reqC7w : Request :=
  ⟨Method.get, "/flatpak/list", some "tok", Body.empty⟩

/-- Witness for C7 under the environment whose two listing attempts fail
with stderr texts unknown column and daemon down. -/
theorem c7_witness :
    (list_flatpak_apps envListFails).1 =
      Except.error ("Could not list flatpaks: " ++
        pyOr (pyOr (pyStrip (envListFails.oracle (listCmd cols2)).stderr)
                   (pyStrip (envListFails.oracle (listCmd cols2)).stdout)) "unknown error") ∧
    handle envListFails "tok" reqC7w =
      (Except.ok (500, RespBody.json (jErr ("Could not list flatpaks: " ++
        pyOr (pyOr (pyStrip (envListFails.oracle (listCmd cols2)).stderr)
                   (pyStrip (envListFails.oracle (listCmd cols2)).stdout)) "unknown error"))),
       [Effect.runc (listCmd cols1), Effect.runc (listCmd cols2)]) :=
  c7_listing_aggregate_failure envListFails "tok" reqC7w rfl rfl rfl rfl
    (by decide) (by decide)

/-- Reading back the codepoint of a packed valid codepoint. -/
theorem char_toNat_ofNat (n : Nat) (h : n.isValidChar) : (Char.ofNat n).toNat = n := by
  simp [Char.ofNat, h, Char.ofNatAux, Char.toNat, UInt32.toNat, BitVec.toNat_ofNatLt]

/-- Characters with equal codepoints are equal. -/
theorem char_eq_of_toNat_eq (a b : Char) (h : a.toNat = b.toNat) : a = b := by
  apply Char.eq_of_val_eq
  rcases a with ⟨⟨av⟩, _⟩
  rcases b with ⟨⟨bv⟩, _⟩
  have h2 : av = bv := BitVec.eq_of_toNat_eq h
  simp [h2]

/-- ASCII uppercasing hits an uppercase letter exactly on that letter
and its lowercase counterpart. -/
theorem toUpper_eq_iff (c u l : Char)
    (hu1 : 65 ≤ u.toNat) (hu2 : u.toNat ≤ 90) (hl : l.toNat = u.toNat + 32) :
    Char.toUpper c = u ↔ (c = u ∨ c = l) := by
  simp only [Char.toUpper]
  by_cases hc : c.toNat ≥ 97 ∧ c.toNat ≤ 122
  · rw [if_pos hc]
    have hvalid : (c.toNat - 32).isValidChar := Or.inl (by omega)
    constructor
    · intro h
      right
      apply char_eq_of_toNat_eq
      have h3 : (Char.ofNat (c.toNat - 32)).toNat = u.toNat := by rw [h]
      rw [char_toNat_ofNat _ hvalid] at h3
      omega
    · rintro (h | h)
      · subst h
        exact absurd hc (by omega)
      · subst h
        have h4 : c.toNat - 32 = u.toNat := by omega
        rw [h4, Char.ofNat_toNat]
  · rw [if_neg hc]
    constructor
    · intro h
      exact Or.inl h
    · rintro (h | h)
      · exact h
      · exfalso
        subst h
        exact hc ⟨by omega, by omega⟩

/-- The five shapes a per-character uppercase image can take. -/
theorem pyUpperChar_cases (c : Char) :
    pyUpperChar c = ['S', 'S'] ∨ pyUpperChar c = ['S', 'T'] ∨
    pyUpperChar c = ['Y', '\u030A'] ∨
    pyUpperChar c = ['S'] ∨ pyUpperChar c = [Char.toUpper c] := by
  unfold pyUpperChar
  split_ifs <;> simp

/-- A per-character uppercase image is never empty. -/
theorem pyUpperChar_ne_nil (c : Char) : pyUpperChar c ≠ [] := by
  rcases pyUpperChar_cases c with h | h | h | h | h <;> simp [h]

/-- The uppercase image of a character is the single letter u (an
uppercase ASCII letter other than S) exactly for u itself and its
lowercase counterpart. -/
theorem pyUpperChar_eq_single (c u l : Char)
    (hu1 : 65 ≤ u.toNat) (hu2 : u.toNat ≤ 90) (hl : l.toNat = u.toNat + 32)
    (hus : u ≠ 'S') :
    pyUpperChar c = [u] ↔ (c = u ∨ c = l) := by
  unfold pyUpperChar
  split_ifs with h1 h2 h4 h3
  · constructor
    · intro h
      simp at h
    · rintro (rfl | rfl) <;> omega
  · constructor
    · intro h
      simp at h
    · rintro (rfl | rfl) <;> rcases h2 with h2 | h2 <;> omega
  · constructor
    · intro h
      simp at h
    · rintro (rfl | rfl) <;> omega
  · constructor
    · intro h
      simp at h
      exact absurd h.symm hus
    · rintro (rfl | rfl) <;> omega
  · simp only [List.cons.injEq, and_true]
    exact toUpper_eq_iff c u l hu1 hu2 hl

/-- The uppercase image of a character is the single letter S exactly
for S, s and U+017F (long s). -/
theorem pyUpperChar_eq_S (c : Char) :
    pyUpperChar c = ['S'] ↔ (c = 'S' ∨ c = 's' ∨ c.toNat = 383) := by
  unfold pyUpperChar
  split_ifs with h1 h2 h4 h3
  · constructor
    · intro h
      simp at h
    · rintro (rfl | rfl | h)
      · exact absurd h1 (by decide)
      · exact absurd h1 (by decide)
      · omega
  · constructor
    · intro h
      simp at h
    · rintro (rfl | rfl | h)
      · exact absurd h2 (by decide)
      · exact absurd h2 (by decide)
      · rcases h2 with h2 | h2 <;> omega
  · constructor
    · intro h
      simp at h
    · rintro (rfl | rfl | h)
      · exact absurd h4 (by decide)
      · exact absurd h4 (by decide)
      · omega
  · constructor
    · intro _
      exact Or.inr (Or.inr h3)
    · intro _
      rfl
  · simp only [List.cons.injEq, and_true]
    rw [toUpper_eq_iff c 'S' 's' (by decide) (by decide) (by decide)]
    constructor
    · rintro (h | h)
      · exact Or.inl h
      · exact Or.inr (Or.inl h)
    · rintro (h | h | h)
      · exact Or.inl h
      · exact Or.inr h
      · exact absurd h h3

/-- Three nonempty character lists concatenating to YES are the three
singletons. -/
theorem append3_eq_YES (xa xb xc : List Char)
    (ha : xa ≠ []) (hb : xb ≠ []) (hc : xc ≠ [])
    (h : xa ++ (xb ++ xc) = ['Y', 'E', 'S']) :
    xa = ['Y'] ∧ xb = ['E'] ∧ xc = ['S'] := by
  rcases xa with _ | ⟨p, pa⟩
  · exact absurd rfl ha
  rcases xb with _ | ⟨q, qb⟩
  · exact absurd rfl hb
  rcases xc with _ | ⟨r, rc⟩
  · exact absurd rfl hc
  have hlen := congrArg List.length h
  simp [List.length_append] at hlen
  have hpa : pa = [] := List.length_eq_zero.mp (by omega)
  have hqb : qb = [] := List.length_eq_zero.mp (by omega)
  have hrc : rc = [] := List.length_eq_zero.mp (by omega)
  subst hpa; subst hqb; subst hrc
  simp only [List.cons_append, List.nil_append, List.cons.injEq, and_true] at h
  obtain ⟨h1, h2, h3⟩ := h
  exact ⟨by rw [h1], by rw [h2], by rw [h3]⟩

/-- The flattened uppercase image of a character list is at least as
long as the list. -/
theorem upper_flatten_length_ge (l : List Char) :
    l.length ≤ ((l.map pyUpperChar).flatten).length := by
  induction l with
  | nil => simp
  | cons c cs ih =>
    have h1 : 1 ≤ (pyUpperChar c).length := by
      rcases pyUpperChar_cases c with h | h | h | h | h <;> simp [h]
    simp only [List.map_cons, List.flatten_cons, List.length_append, List.length_cons]
    omega

/-- The uppercased string is exactly YES iff the input is three
characters whose uppercase images are the singletons Y, E and S: no
multi-character expansion (SS, ST or Y with combining ring) and no
shorter or longer input can concatenate to the three letters. -/
theorem upper_flatten_eq_YES (l : List Char) :
    (l.map pyUpperChar).flatten = ['Y', 'E', 'S'] ↔
    ∃ a b c, l = [a, b, c] ∧ pyUpperChar a = ['Y'] ∧
      pyUpperChar b = ['E'] ∧ pyUpperChar c = ['S'] := by
  constructor
  · intro h
    rcases l with _ | ⟨a, _ | ⟨b, _ | ⟨c, _ | ⟨d, rest⟩⟩⟩⟩
    · simp at h
    · rcases pyUpperChar_cases a with ha | ha | ha | ha | ha <;> simp [ha] at h
    · rcases pyUpperChar_cases a with ha | ha | ha | ha | ha <;>
        rcases pyUpperChar_cases b with hb | hb | hb | hb | hb <;>
          simp [ha, hb] at h
    · have h2 : pyUpperChar a ++ (pyUpperChar b ++ pyUpperChar c) = ['Y', 'E', 'S'] := by
        simpa using h
      obtain ⟨hA, hB, hC⟩ := append3_eq_YES _ _ _ (pyUpperChar_ne_nil a)
        (pyUpperChar_ne_nil b) (pyUpperChar_ne_nil c) h2
      exact ⟨a, b, c, rfl, hA, hB, hC⟩
    · exfalso
      have hlen := upper_flatten_length_ge (a :: b :: c :: d :: rest)
      rw [h] at hlen
      simp at hlen
  · rintro ⟨a, b, c, rfl, hA, hB, hC⟩
    simp [hA, hB, hC]

/--
C8 (confirmed): in the console fallback of the confirmation gate (no
display, or a display with neither dialog tool), the gate runs no
subprocess and approves exactly when the stdin line, stripped of
surrounding whitespace, is a three-character string spelling YES
case-insensitively: first letter Y or y, second E or e, third S, s or
U+017F long s (whose case folding is s, so it is a case variant of S);
every other input, including the empty line, is rejected.
-/
theorem c8_console_yes (env : Env) (title message : String)
    (hd : env.display = false ∨ (env.kdialog = false ∧ env.zenity = false)) :
    ((gui_confirm env title message).1 = true ↔
      ∃ a b c : Char, (pyStrip env.stdinLine).toList = [a, b, c] ∧
        (a = 'Y' ∨ a = 'y') ∧ (b = 'E' ∨ b = 'e') ∧
        (c = 'S' ∨ c = 's' ∨ c.toNat = 383)) ∧
    (gui_confirm env title message).2 = [] := by
  have hcc : gui_confirm env title message = (consoleConfirm env, []) := by
    rcases hd with hd | ⟨hk, hz⟩
    · simp [gui_confirm, hd]
    · cases hdisp : env.display <;> simp [gui_confirm, hdisp, hk, hz]
  rw [hcc]
  refine ⟨?_, rfl⟩
  show consoleConfirm env = true ↔ _
  unfold consoleConfirm pyUpper
  rw [beq_iff_eq]
  rw [show ("YES" : String) = String.mk ['Y', 'E', 'S'] from rfl]
  rw [show (String.mk (((pyStrip env.stdinLine).toList.map pyUpperChar).flatten) =
        String.mk ['Y', 'E', 'S']) ↔
      (((pyStrip env.stdinLine).toList.map pyUpperChar).flatten = ['Y', 'E', 'S']) from
    String.ext_iff]
  rw [upper_flatten_eq_YES]
  constructor
  · rintro ⟨a, b, c, hl, hA, hB, hC⟩
    exact ⟨a, b, c, hl,
      (pyUpperChar_eq_single a 'Y' 'y' (by decide) (by decide) (by decide) (by decide)).mp hA,
      (pyUpperChar_eq_single b 'E' 'e' (by decide) (by decide) (by decide) (by decide)).mp hB,
      (pyUpperChar_eq_S c).mp hC⟩
  · rintro ⟨a, b, c, hl, hA, hB, hC⟩
    exact ⟨a, b, c, hl,
      (pyUpperChar_eq_single a 'Y' 'y' (by decide) (by decide) (by decide) (by decide)).mpr hA,
      (pyUpperChar_eq_single b 'E' 'e' (by decide) (by decide) (by decide) (by decide)).mpr hB,
      (pyUpperChar_eq_S c).mpr hC⟩

/-- Concrete witness environment for C8: console operator typing a
mixed-case yes with surrounding ASCII whitespace. -/
def envC8w : Env :=
  { envYes with stdinLine := " yEs " }

/-- Concrete witness environment for C8: console answer yes followed by
a no-break space U+00A0, which Python strip removes. -/
def envC8nbsp : Env :=
  { envYes with stdinLine := "yes " }

/-- Concrete witness environment for C8: console answer ye followed by
U+017F long s, which Python uppercases to S. -/
def envC8longs : Env :=
  { envYes with stdinLine := "yeſ" }

/-- Witness for C8: the mixed-case console answer approves with no
subprocess; the answers with a trailing no-break space and with a long s
also approve; the declining environment (console answer no) is
rejected. -/
theorem c8_witness :
    (gui_confirm envC8w "T" "M").1 = true ∧
    (gui_confirm envC8w "T" "M").2 = [] ∧
    (gui_confirm envC8nbsp "T" "M").1 = true ∧
    (gui_confirm envC8longs "T" "M").1 = true ∧
    (gui_confirm envNo "T" "M").1 ≠ true :=
  ⟨(c8_console_yes envC8w "T" "M" (Or.inl rfl)).1.mpr
      ⟨'y', 'E', 's', by decide, Or.inr rfl, Or.inl rfl, Or.inr (Or.inl rfl)⟩,
   (c8_console_yes envC8w "T" "M" (Or.inl rfl)).2,
   (c8_console_yes envC8nbsp "T" "M" (Or.inl rfl)).1.mpr
      ⟨'y', 'e', 's', by decide, Or.inr rfl, Or.inr rfl, Or.inr (Or.inl rfl)⟩,
   (c8_console_yes envC8longs "T" "M" (Or.inl rfl)).1.mpr
      ⟨'y', 'e', Char.ofNat 383, by decide, Or.inr rfl, Or.inr rfl,
        Or.inr (Or.inr (by decide))⟩,
   fun h => by
    obtain ⟨a, b, c, hcs, _, _, _⟩ := (c8_console_yes envNo "T" "M" (Or.inl rfl)).1.mp h
    rw [show (pyStrip envNo.stdinLine).toList = ['n', 'o'] from by decide] at hcs
    simp at hcs⟩

/-- The POST handler cannot raise when the parsed body is a JSON
object: every branch after a successful payload.get returns a
response. -/
theorem do_POST_no_crash (env : Env) (st : String) (p : String) (t : Option String)
    (b : Body) (fs : List (String × Json))
    (hp : p = "/install" ∨ p = "/flatpak/run")
    (hread : readJson b = Json.obj fs) :
    (do_POST env st ⟨Method.post, p, t, b⟩).1 ≠ Except.error () := by
  rcases hp with hp | hp <;> subst hp <;>
  · unfold do_POST
    simp only [hread, dictGet]
    repeat' split
    all_goals simp

/-- Concrete counterexample request for C9: a body that is valid JSON
but not an object. -/
def reqC9 : Request :=
  ⟨Method.post, "/install", some "tok", Body.json (Json.arr [Json.num 1])⟩

/--
C9 (counterexample): a POST /install with correct token whose body is
the valid JSON array [1] makes payload.get raise an uncaught
AttributeError (modelled as Except.error): the request does fail with a
type error, before any response and any subprocess.
-/
theorem c9_counterexample :
    (handle envYes "tok" reqC9).1 = Except.error () ∧
    (handle envYes "tok" reqC9).2 = [] :=
  ⟨rfl, rfl⟩

/--
C9 (amended): for a POST to /install or /flatpak/run with correct
token, an absent or unparseable body is treated as the empty object,
and whenever the body parses to a JSON object the request cannot fail
with a JSON-parse or type error; the appId value is coerced through
str() before validation, so replacing it by its string form leaves the
whole response unchanged, and the number 123 passes identifier
validation.  A valid-JSON non-object body, however, raises an uncaught
type error.
-/
theorem c9_object_body_handling (env : Env) (st : String) (req : Request)
    (hm : req.method = Method.post)
    (hp : req.path = "/install" ∨ req.path = "/flatpak/run")
    (ht : reqToken req = st) :
    (readJson Body.empty = Json.obj [] ∧ readJson Body.malformed = Json.obj []) ∧
    (∀ fs : List (String × Json),
        req.body = Body.empty ∨ req.body = Body.malformed ∨
          req.body = Body.json (Json.obj fs) →
        (handle env st req).1 ≠ Except.error ()) ∧
    (∀ v : Json,
        handle env st { req with body := Body.json (Json.obj [("appId", v)]) } =
        handle env st
          { req with body := Body.json (Json.obj [("appId", Json.str (pyStr v))]) }) ∧
    (pyStr (Json.num 123) = "123" ∧
     appidMatch (pyStrip (pyStr (Json.num 123))) = true) := by
  have h123 : pyStr (Json.num 123) = "123" := by
    simp [pyStr, pyRepr]
    decide
  rcases req with ⟨m, p, t, b⟩
  simp only at hm hp ht
  subst hm
  refine ⟨⟨rfl, rfl⟩, ?_, ?_, h123, by rw [h123]; decide⟩
  · intro fs hb
    show (do_POST env st ⟨Method.post, p, t, b⟩).1 ≠ Except.error ()
    rcases hb with hb | hb | hb <;> simp only at hb <;> subst hb
    · exact do_POST_no_crash env st p t Body.empty [] hp rfl
    · exact do_POST_no_crash env st p t Body.malformed [] hp rfl
    · exact do_POST_no_crash env st p t (Body.json (Json.obj fs)) fs hp rfl
  · intro v
    show do_POST env st ⟨Method.post, p, t, Body.json (Json.obj [("appId", v)])⟩ =
      do_POST env st ⟨Method.post, p, t, Body.json (Json.obj [("appId", Json.str (pyStr v))])⟩
    rfl

/-- Concrete witness request for C9: an authorised install request with
no body. -/
def reqC9w : Request :=
  ⟨Method.post, "/install", some "tok", Body.empty⟩

/-- Witness for the amended C9: the empty-body request does not crash,
and the numeric appId 123 is handled exactly like the string "123". -/
theorem c9_witness :
    (handle envYes "tok" reqC9w).1 ≠ Except.error () ∧
    handle envYes "tok"
        { reqC9w with body := Body.json (Json.obj [("appId", Json.num 123)]) } =
      handle envYes "tok"
        { reqC9w with
          body := Body.json (Json.obj [("appId", Json.str (pyStr (Json.num 123)))]) } :=
  ⟨(c9_object_body_handling envYes "tok" reqC9w rfl (Or.inl rfl) rfl).2.1 []
      (Or.inl rfl),
   (c9_object_body_handling envYes "tok" reqC9w rfl (Or.inl rfl) rfl).2.2.1
      (Json.num 123)⟩

end MujerOS
